import Mathlib

/-!
Verification of the pypolestar client embedded in the polestar_api
Home Assistant integration.

The development shallowly embeds the Python sources under
`custom_components/polestar_api/pypolestar/`:

* `utils.py`    — the path-based field extractor and its typed variants
* `models.py`   — the typed data snapshots (`CarInformationData`,
                  `CarOdometerData`, `CarBatteryData`) and status enums
* `auth.py`     — token state, `need_token_refresh`, `is_token_valid`,
                  `_parse_token_response`, `get_token`
* `polestar.py` — `PolestarApi.init` and `PolestarApi.get_ev_data`

Python dictionaries holding GraphQL responses become the inductive type
`GqlValue`; Python exceptions become the `PyExc` error type carried by
`Except`; `datetime` instants become rationals tagged with timezone
awareness (naive vs. UTC-aware), since the code mixes `datetime.now()`
and `datetime.now(tz=timezone.utc)` and CPython raises `TypeError` when
comparing or subtracting a naive and an aware datetime.  Network
operations are modelled by explicit environment records describing the
responses the remote endpoints would return; each operation returns the
resulting value or exception, the updated state, and the list of
network interactions it performed.
-/

/-- Python exceptions that the embedded code can raise.  `keyError` and
`valueError` carry the message built by `utils.py`; the Polestar
exception classes from `exception.py` are carried without payload. -/
inductive PyExc where
  | typeError
  | attributeError
  | keyError (msg : String)
  | valueError (msg : String)
  | polestarAuthException
  | polestarApiException
  | polestarNotAuthorized
  | polestarNoData
deriving DecidableEq, Repr

mutual
/-- A JSON-like value as handled by `utils.py` (`GqlScalar | GqlDict`):
`None`, `bool`, `int`, `float` (modelled as a rational) and `str`
scalars, or a nested dictionary. -/
inductive GqlValue where
  | null
  | bool (b : Bool)
  | int (n : Int)
  | float (q : ℚ)
  | str (s : String)
  | dict (entries : GqlEntries)

/-- The entries of a `GqlValue.dict`, in insertion order. -/
inductive GqlEntries where
  | nil
  | cons (key : String) (value : GqlValue) (rest : GqlEntries)
end

deriving instance DecidableEq for GqlValue
deriving instance Repr for GqlValue

/-- Key lookup in a dictionary, as Python `key in result` / `result[key]`. -/
def GqlEntries.lookup : GqlEntries → String → Option GqlValue
  | .nil, _ => none
  | .cons k v r, key => if k = key then some v else r.lookup key

/-- Python truthiness of a `GqlValue` (`bool(value)`). -/
def GqlValue.truthy : GqlValue → Bool
  | .null => false
  | .bool b => b
  | .int n => n != 0
  | .float q => q != 0
  | .str s => s != ""
  | .dict .nil => false
  | .dict (.cons _ _ _) => true

/-- Whether the value is a Python `dict` (`isinstance(data, dict)`). -/
def GqlValue.isDict : GqlValue → Bool
  | .dict _ => true
  | _ => false

/-- `str.split("/")` on the character list: split at every slash,
keeping empty segments, exactly as Python does for a one-character
separator. -/
def splitPathAux : List Char → List Char → List String
  | [], acc => [⟨acc.reverse⟩]
  | c :: cs, acc =>
    if c = '/' then ⟨acc.reverse⟩ :: splitPathAux cs []
    else splitPathAux cs (c :: acc)

/-- `field_name.split("/")` from `get_field_name_value`. -/
def splitPath (s : String) : List String := splitPathAux s.data []

/-- `not field_name.strip()`: true when the string is empty or consists
only of whitespace. -/
def isWhitespaceOnly (s : String) : Bool := s.data.all (·.isWhitespace)

/-- The traversal loop of `get_field_name_value` (`utils.py` lines
30-38): walk the keys; a missing key or a non-dict intermediate value
raises `KeyError` with a message naming the full path. -/
def gqlTraverse (field_name : String) : List String → GqlValue → Except PyExc GqlValue
  | [], v => .ok v
  | k :: rest, v =>
    match v with
    | .dict entries =>
      match entries.lookup k with
      | some v2 => gqlTraverse field_name rest v2
      | none =>
        .error (.keyError ("Key " ++ k ++ " not found in path " ++ field_name))
    | _ =>
      .error (.keyError
        ("Cannot access key " ++ k ++ " in non-dict value at path " ++ field_name))

/-- `get_field_name_value` (`utils.py` lines 8-40): validate the path,
return `None` unchanged for `None` input, then traverse. -/
def get_field_name_value (field_name : String) (data : GqlValue) :
    Except PyExc GqlValue :=
  if isWhitespaceOnly field_name then
    .error (.valueError "Field name cannot be empty")
  else
    match data with
    | .null => .ok .null
    | _ => gqlTraverse field_name (splitPath field_name) data

/-- `isinstance(value, str)`. -/
def GqlValue.isStr : GqlValue → Bool
  | .str _ => true
  | _ => false

/-- `isinstance(value, int)`: in Python `bool` is a subclass of `int`. -/
def GqlValue.isPyInt : GqlValue → Bool
  | .int _ => true
  | .bool _ => true
  | _ => false

/-- `isinstance(value, float)`. -/
def GqlValue.isPyFloat : GqlValue → Bool
  | .float _ => true
  | _ => false

/-- The integer a `GqlValue` satisfying `isPyInt` stands for
(`True == 1`, `False == 0`). -/
def GqlValue.intVal : GqlValue → Int
  | .int n => n
  | .bool b => if b then 1 else 0
  | _ => 0

/-- Digit characters to their value; `none` for non-digits. -/
def digitVal (c : Char) : Option Nat :=
  if c.isDigit then some (c.toNat - 48) else none

/-- Value of a non-empty all-digit character list, as read by Python
`int`. -/
def digitsVal (cs : List Char) : Option Nat :=
  if cs ≠ [] ∧ cs.all Char.isDigit then
    some (cs.foldl (fun acc c => acc * 10 + (c.toNat - 48)) 0)
  else none

/-- `int(s)` for a string: strip surrounding whitespace, optional sign,
then decimal digits.  (Underscore grouping accepted by CPython is not
modelled; no claim depends on it.) -/
def pyIntOfString (s : String) : Option Int :=
  let cs := ((s.data.dropWhile Char.isWhitespace).reverse.dropWhile
    Char.isWhitespace).reverse
  match cs with
  | '+' :: ds => (digitsVal ds).map (fun n => (n : Int))
  | '-' :: ds => (digitsVal ds).map (fun n => -(n : Int))
  | ds => (digitsVal ds).map (fun n => (n : Int))

/-- Truncation of a rational toward zero, as Python `int(float)`. -/
def truncQ (q : ℚ) : Int := if 0 ≤ q then ⌊q⌋ else -⌊-q⌋

/-- `int(value)` on a `GqlValue`: identity on ints and bools,
truncation on floats, decimal parsing on strings; `TypeError` (mapped
to `none`) on `None` and dicts. -/
def pyIntCoerce : GqlValue → Option Int
  | .int n => some n
  | .bool b => some (if b then 1 else 0)
  | .float q => some (truncQ q)
  | .str s => pyIntOfString s
  | _ => none

/-- Digits with an optional single decimal point, yielding a rational.
Used by the model of Python `float(str)`.  (Exponent and inf/nan forms
accepted by CPython are not modelled; no claim depends on them.) -/
def pyFloatDigits (cs : List Char) : Option ℚ :=
  match cs.splitOn '.' with
  | [intPart] =>
    (digitsVal intPart).map (fun n => (n : ℚ))
  | [intPart, fracPart] =>
    if intPart = [] ∧ fracPart = [] then none
    else if (intPart ++ fracPart).all Char.isDigit ∧ intPart ++ fracPart ≠ [] then
      some (((digitsVal (intPart ++ fracPart)).getD 0 : ℚ) /
        (10 ^ fracPart.length : ℚ))
    else none
  | _ => none

/-- `float(s)` for a string. -/
def pyFloatOfString (s : String) : Option ℚ :=
  let cs := ((s.data.dropWhile Char.isWhitespace).reverse.dropWhile
    Char.isWhitespace).reverse
  match cs with
  | '+' :: ds => pyFloatDigits ds
  | '-' :: ds => (pyFloatDigits ds).map (fun q => -q)
  | ds => pyFloatDigits ds

/-- `float(value)` on a `GqlValue`. -/
def pyFloatCoerce : GqlValue → Option ℚ
  | .int n => some (n : ℚ)
  | .bool b => some (if b then 1 else 0)
  | .float q => some q
  | .str s => pyFloatOfString s
  | _ => none

/-- `get_field_name_str` (`utils.py` lines 43-52): returns the value
only when it is truthy and a `str`; otherwise falls off the function
and returns `None`.  It never raises `ValueError`. -/
def get_field_name_str (field_name : String) (data : GqlValue) :
    Except PyExc (Option String) :=
  match get_field_name_value field_name data with
  | .error e => .error e
  | .ok v =>
    if v.truthy && v.isStr then
      match v with
      | .str s => .ok (some s)
      | _ => .ok none
    else .ok none

/-- `get_field_name_int` (`utils.py` lines 72-88). -/
def get_field_name_int (field_name : String) (data : GqlValue) :
    Except PyExc (Option Int) :=
  match get_field_name_value field_name data with
  | .error e => .error e
  | .ok v =>
    if v.truthy && v.isPyInt then .ok (some v.intVal)
    else
      match v with
      | .null => .ok none
      | _ =>
        match pyIntCoerce v with
        | some n => .ok (some n)
        | none => .error (.valueError ("Invalid integer value at " ++ field_name))

/-- `get_field_name_float` (`utils.py` lines 55-69). -/
def get_field_name_float (field_name : String) (data : GqlValue) :
    Except PyExc (Option ℚ) :=
  match get_field_name_value field_name data with
  | .error e => .error e
  | .ok v =>
    if v.truthy && v.isPyFloat then
      match v with
      | .float q => .ok (some q)
      | _ => .ok none
    else
      match v with
      | .null => .ok none
      | _ =>
        match pyFloatCoerce v with
        | some q => .ok (some q)
        | none => .error (.valueError ("Invalid float value at " ++ field_name))

/-- The Gregorian leap-year rule used by `datetime.date`. -/
def isLeapYear (y : Nat) : Bool :=
  y % 4 == 0 && (y % 100 != 0 || y % 400 == 0)

/-- Days in a month of the proleptic Gregorian calendar. -/
def daysInMonth (y m : Nat) : Nat :=
  if m = 2 then (if isLeapYear y then 29 else 28)
  else if m = 4 ∨ m = 6 ∨ m = 9 ∨ m = 11 then 30
  else 31

/-- A `datetime.date` value. -/
structure PyDate where
  year : Nat
  month : Nat
  day : Nat
deriving DecidableEq, Repr

/-- The constructor constraints of `datetime.date`
(`MINYEAR = 1`, `MAXYEAR = 9999`, calendar-valid month and day). -/
def PyDate.validB (d : PyDate) : Bool :=
  1 ≤ d.year && d.year ≤ 9999 && 1 ≤ d.month && d.month ≤ 12 &&
    1 ≤ d.day && d.day ≤ daysInMonth d.year d.month

/-- The four digit characters of `%04d` for values up to 9999. -/
def pad4 (n : Nat) : List Char :=
  [Nat.digitChar (n / 1000 % 10), Nat.digitChar (n / 100 % 10),
    Nat.digitChar (n / 10 % 10), Nat.digitChar (n % 10)]

/-- The two digit characters of `%02d` for values up to 99. -/
def pad2 (n : Nat) : List Char :=
  [Nat.digitChar (n / 10 % 10), Nat.digitChar (n % 10)]

/-- `date.isoformat()`: `YYYY-MM-DD`, zero padded. -/
def PyDate.isoformat (d : PyDate) : String :=
  ⟨pad4 d.year ++ '-' :: pad2 d.month ++ '-' :: pad2 d.day⟩

/-- Value of two digit characters. -/
def parse2 (a b : Char) : Option Nat := do
  pure ((← digitVal a) * 10 + (← digitVal b))

/-- Value of four digit characters. -/
def parse4 (a b c d : Char) : Option Nat := do
  pure (((← digitVal a) * 10 + (← digitVal b)) * 100 +
    ((← digitVal c) * 10 + (← digitVal d)))

/-- `date.fromisoformat` restricted to the canonical `YYYY-MM-DD` form
that `date.isoformat` produces (CPython 3.11+ also accepts compact and
week-date forms; the integration only ever feeds it API strings and
the round-trip claim only concerns `isoformat` output). -/
def date_fromisoformat (s : String) : Option PyDate :=
  match s.data with
  | [y1, y2, y3, y4, c1, m1, m2, c2, d1, d2] =>
    if c1 = '-' ∧ c2 = '-' then
      match parse4 y1 y2 y3 y4, parse2 m1 m2, parse2 d1 d2 with
      | some y, some m, some d =>
        let dt : PyDate := ⟨y, m, d⟩
        if dt.validB then some dt else none
      | _, _, _ => none
    else none
  | _ => none

/-- A `datetime.datetime` value at second resolution: the sub-second
and sub-minute-offset components are not modelled (`isoformat` only
prints them when they are non-zero, and the API timestamps handled by
the integration are whole seconds with whole-minute offsets).
`offset` is the UTC offset in minutes, `none` for a naive datetime. -/
structure PyDateTime where
  year : Nat
  month : Nat
  day : Nat
  hour : Nat
  minute : Nat
  second : Nat
  offset : Option Int
deriving DecidableEq, Repr

/-- Constructor constraints of `datetime.datetime` (with a
`timezone`-style fixed offset strictly between -24h and +24h). -/
def PyDateTime.validB (t : PyDateTime) : Bool :=
  PyDate.validB ⟨t.year, t.month, t.day⟩ && t.hour ≤ 23 && t.minute ≤ 59 &&
    t.second ≤ 59 &&
    (match t.offset with
     | none => true
     | some o => o.natAbs < 1440)

/-- The `+HH:MM` / `-HH:MM` suffix `datetime.isoformat` prints for an
aware datetime (nothing for a naive one). -/
def offsetChars : Option Int → List Char
  | none => []
  | some o =>
    (if o < 0 then '-' else '+') ::
      (pad2 (o.natAbs / 60) ++ ':' :: pad2 (o.natAbs % 60))

/-- `datetime.isoformat()` (default separator `T`). -/
def PyDateTime.isoformat (t : PyDateTime) : String :=
  ⟨pad4 t.year ++ '-' :: pad2 t.month ++ '-' :: pad2 t.day ++
    'T' :: pad2 t.hour ++ ':' :: pad2 t.minute ++ ':' :: pad2 t.second ++
    offsetChars t.offset⟩

/-- Parse the optional offset suffix: empty for naive, `±HH:MM`
otherwise. -/
def parseOffset : List Char → Option (Option Int)
  | [] => some none
  | [sg, h1, h2, c, m1, m2] =>
    if (sg = '+' ∨ sg = '-') ∧ c = ':' then
      match parse2 h1 h2, parse2 m1 m2 with
      | some hh, some mm =>
        if hh < 24 ∧ mm < 60 then
          some (some (if sg = '-' then -((hh * 60 + mm : Nat) : Int)
            else ((hh * 60 + mm : Nat) : Int)))
        else none
      | _, _ => none
    else none
  | _ => none

/-- `datetime.fromisoformat` restricted to the canonical forms that
`datetime.isoformat` produces for the datetimes modelled here. -/
def datetime_fromisoformat (s : String) : Option PyDateTime :=
  match s.data with
  | y1 :: y2 :: y3 :: y4 :: c1 :: m1 :: m2 :: c2 :: d1 :: d2 :: c3 ::
      h1 :: h2 :: c4 :: n1 :: n2 :: c5 :: s1 :: s2 :: rest =>
    if c1 = '-' ∧ c2 = '-' ∧ (c3 = 'T' ∨ c3 = ' ') ∧ c4 = ':' ∧ c5 = ':' then
      match parse4 y1 y2 y3 y4, parse2 m1 m2, parse2 d1 d2,
          parse2 h1 h2, parse2 n1 n2, parse2 s1 s2 with
      | some y, some mo, some da, some h, some mi, some se =>
        match parseOffset rest with
        | some off =>
          let t : PyDateTime := ⟨y, mo, da, h, mi, se, off⟩
          if t.validB then some t else none
        | none => none
      | _, _, _, _, _, _ => none
    else none
  | _ => none

/-- `get_field_name_date` (`utils.py` lines 91-108).  The
`isinstance(value, date)` branch is dead for `GqlDict`-typed data
(whose scalars are `int | float | str | bool | None`) and is therefore
not modelled. -/
def get_field_name_date (field_name : String) (data : GqlValue) :
    Except PyExc (Option PyDate) :=
  match get_field_name_value field_name data with
  | .error e => .error e
  | .ok v =>
    if v.truthy then
      match v with
      | .str s =>
        match date_fromisoformat s with
        | some d => .ok (some d)
        | none => .error (.valueError ("Invalid date format at " ++ field_name))
      | _ => .ok none
    else .ok none

/-- `get_field_name_datetime` (`utils.py` lines 111-128); same dead
`isinstance(value, datetime)` branch remark as for the date variant. -/
def get_field_name_datetime (field_name : String) (data : GqlValue) :
    Except PyExc (Option PyDateTime) :=
  match get_field_name_value field_name data with
  | .error e => .error e
  | .ok v =>
    if v.truthy then
      match v with
      | .str s =>
        match datetime_fromisoformat s with
        | some d => .ok (some d)
        | none => .error (.valueError ("Invalid datetime format at " ++ field_name))
      | _ => .ok none
    else .ok none

/-- `ChargingConnectionStatus` (`models.py` lines 16-20). -/
inductive ChargingConnectionStatus where
  | connected
  | disconnected
  | fault
  | unspecified
deriving DecidableEq, Repr

/-- `ChargingConnectionStatus[name]`: lookup by member NAME, as the
Python `Enum.__getitem__` used in `CarBatteryData.from_dict`. -/
def ccsNameLookup : String → Option ChargingConnectionStatus
  | "CHARGER_CONNECTION_STATUS_CONNECTED" => some .connected
  | "CHARGER_CONNECTION_STATUS_DISCONNECTED" => some .disconnected
  | "CHARGER_CONNECTION_STATUS_FAULT" => some .fault
  | "CHARGER_CONNECTION_STATUS_UNSPECIFIED" => some .unspecified
  | _ => none

/-- `ChargingStatus` (`models.py` lines 23-32). -/
inductive ChargingStatus where
  | done
  | idle
  | charging
  | fault
  | unspecified
  | scheduled
  | discharging
  | error
  | smartCharging
deriving DecidableEq, Repr

/-- `ChargingStatus[name]` member-name lookup. -/
def csNameLookup : String → Option ChargingStatus
  | "CHARGING_STATUS_DONE" => some .done
  | "CHARGING_STATUS_IDLE" => some .idle
  | "CHARGING_STATUS_CHARGING" => some .charging
  | "CHARGING_STATUS_FAULT" => some .fault
  | "CHARGING_STATUS_UNSPECIFIED" => some .unspecified
  | "CHARGING_STATUS_SCHEDULED" => some .scheduled
  | "CHARGING_STATUS_DISCHARGING" => some .discharging
  | "CHARGING_STATUS_ERROR" => some .error
  | "CHARGING_STATUS_SMART_CHARGING" => some .smartCharging
  | _ => none

/-- `CarInformationData` (`models.py` lines 40-76); the inherited
`_received_timestamp` is `received_timestamp` here. -/
structure CarInformationData where
  vin : Option String
  internal_vehicle_identifier : Option String
  registration_no : Option String
  registration_date : Option PyDate
  factory_complete_date : Option PyDate
  model_name : Option String
  image_url : Option String
  battery : Option String
  torque : Option String
  software_version : Option String
  software_version_timestamp : Option PyDateTime
  received_timestamp : ℚ
deriving DecidableEq, Repr

/-- `CarInformationData.from_dict` (`models.py` lines 54-76): `TypeError`
on non-dict input, then the field extractions in keyword order (the
first failing extraction propagates).  `now` stands for
`datetime.now(tz=timezone.utc)`. -/
def CarInformationData.from_dict (data : GqlValue) (now : ℚ) :
    Except PyExc CarInformationData :=
  match data with
  | .dict _ => do
    let vin ← get_field_name_str "vin" data
    let ivi ← get_field_name_str "internalVehicleIdentifier" data
    let regno ← get_field_name_str "registrationNo" data
    let regdate ← get_field_name_date "registrationDate" data
    let fcd ← get_field_name_date "factoryCompleteDate" data
    let mname ← get_field_name_str "content/model/name" data
    let iurl ← get_field_name_str "content/images/studio/url" data
    let batt ← get_field_name_str "content/specification/battery" data
    let torq ← get_field_name_str "content/specification/torque" data
    let swv ← get_field_name_str "software/version" data
    let swts ← get_field_name_datetime "software/versionTimestamp" data
    .ok { vin := vin, internal_vehicle_identifier := ivi,
          registration_no := regno, registration_date := regdate,
          factory_complete_date := fcd, model_name := mname,
          image_url := iurl, battery := batt, torque := torq,
          software_version := swv, software_version_timestamp := swts,
          received_timestamp := now }
  | _ => .error .typeError

/-- `CarOdometerData` (`models.py` lines 79-101). -/
structure CarOdometerData where
  average_speed_km_per_hour : Option Int
  odometer_meters : Option Int
  trip_meter_automatic_km : Option ℚ
  trip_meter_manual_km : Option ℚ
  event_updated_timestamp : Option PyDateTime
  received_timestamp : ℚ
deriving DecidableEq, Repr

/-- `CarOdometerData.from_dict` (`models.py` lines 87-101). -/
def CarOdometerData.from_dict (data : GqlValue) (now : ℚ) :
    Except PyExc CarOdometerData :=
  match data with
  | .dict _ => do
    let avg ← get_field_name_int "averageSpeedKmPerHour" data
    let odo ← get_field_name_int "odometerMeters" data
    let tma ← get_field_name_float "tripMeterAutomaticKm" data
    let tmm ← get_field_name_float "tripMeterManualKm" data
    let ts ← get_field_name_datetime "eventUpdatedTimestamp/iso" data
    .ok { average_speed_km_per_hour := avg, odometer_meters := odo,
          trip_meter_automatic_km := tma, trip_meter_manual_km := tmm,
          event_updated_timestamp := ts, received_timestamp := now }
  | _ => .error .typeError

/-- `CarBatteryData` (`models.py` lines 104-115). -/
structure CarBatteryData where
  average_energy_consumption_kwh_per_100km : Option ℚ
  battery_charge_level_percentage : Option Int
  charger_connection_status : ChargingConnectionStatus
  charging_current_amps : Int
  charging_power_watts : Int
  charging_status : ChargingStatus
  estimated_charging_time_minutes_to_target_distance : Option Int
  estimated_charging_time_to_full_minutes : Option Int
  estimated_distance_to_empty_km : Option Int
  event_updated_timestamp : Option PyDateTime
  received_timestamp : ℚ
deriving DecidableEq, Repr

/-- The `try: ChargingConnectionStatus[...] except KeyError:` block of
`CarBatteryData.from_dict` (`models.py` lines 122-129): a `KeyError`
from the extractor (missing key) or from the enum name lookup (`None`
or an unknown name) yields the `Unspecified` member; any other
exception propagates. -/
def batteryCcs (data : GqlValue) : Except PyExc ChargingConnectionStatus :=
  match get_field_name_str "chargerConnectionStatus" data with
  | .error (.keyError _) => .ok .unspecified
  | .error e => .error e
  | .ok none => .ok .unspecified
  | .ok (some s) => .ok ((ccsNameLookup s).getD .unspecified)

/-- The `try: ChargingStatus[...] except KeyError:` block of
`CarBatteryData.from_dict` (`models.py` lines 131-134). -/
def batteryCs (data : GqlValue) : Except PyExc ChargingStatus :=
  match get_field_name_str "chargingStatus" data with
  | .error (.keyError _) => .ok .unspecified
  | .error e => .error e
  | .ok none => .ok .unspecified
  | .ok (some s) => .ok ((csNameLookup s).getD .unspecified)

/-- Python `x or 0` applied to an optional int (`models.py` lines
144-145): `None` and `0` both give `0`. -/
def pyOrZero : Option Int → Int
  | none => 0
  | some n => if n = 0 then 0 else n

/-- `CarBatteryData.from_dict` (`models.py` lines 117-160): `TypeError`
on non-dict input; the two enum fields are computed first inside
`try/except KeyError` blocks, then the remaining extractions run in
keyword order. -/
def CarBatteryData.from_dict (data : GqlValue) (now : ℚ) :
    Except PyExc CarBatteryData :=
  match data with
  | .dict _ => do
    let ccs ← batteryCcs data
    let cs ← batteryCs data
    let aec ← get_field_name_float "averageEnergyConsumptionKwhPer100Km" data
    let bclp ← get_field_name_int "batteryChargeLevelPercentage" data
    let amps ← get_field_name_int "chargingCurrentAmps" data
    let watts ← get_field_name_int "chargingPowerWatts" data
    let est1 ← get_field_name_int "estimatedChargingTimeMinutesToTargetDistance" data
    let est2 ← get_field_name_int "estimatedChargingTimeToFullMinutes" data
    let est3 ← get_field_name_int "estimatedDistanceToEmptyKm" data
    let ts ← get_field_name_datetime "eventUpdatedTimestamp/iso" data
    .ok { average_energy_consumption_kwh_per_100km := aec,
          battery_charge_level_percentage := bclp,
          charger_connection_status := ccs,
          charging_current_amps := pyOrZero amps,
          charging_power_watts := pyOrZero watts,
          charging_status := cs,
          estimated_charging_time_minutes_to_target_distance := est1,
          estimated_charging_time_to_full_minutes := est2,
          estimated_distance_to_empty_km := est3,
          event_updated_timestamp := ts, received_timestamp := now }
  | _ => .error .typeError

/-- `TOKEN_REFRESH_WINDOW_MIN` from `pypolestar/const.py`. -/
def TOKEN_REFRESH_WINDOW_MIN : ℚ := 300

/-- `ODO_METER_DATA` from `pypolestar/const.py`. -/
def ODO_METER_DATA : String := "getOdometerData"

/-- `BATTERY_DATA` from `pypolestar/const.py`. -/
def BATTERY_DATA : String := "getBatteryData"

/-- `CAR_INFO_DATA` from `pypolestar/const.py`. -/
def CAR_INFO_DATA : String := "getConsumerCarsV2"

/-- A `datetime` instant: seconds on a common axis plus the timezone
awareness flag.  `auth.py` always builds aware instants
(`datetime.now(tz=timezone.utc)`), `polestar.py` naive ones
(`datetime.now()`); CPython raises `TypeError` when the two are
compared or subtracted. -/
structure TimeVal where
  q : ℚ
  aware : Bool
deriving DecidableEq, Repr

/-- The token-related state of `PolestarAuth` (`auth.py` lines 43-54). -/
structure AuthState where
  access_token : Option String
  id_token : Option String
  refresh_token : Option String
  token_lifetime : Option ℚ
  token_expiry : Option TimeVal
  latest_call_code : Option Int
deriving DecidableEq, Repr

/-- Python truthiness of an optional string (`if self.refresh_token:`). -/
def pyTruthyOptStr : Option String → Bool
  | none => false
  | some s => s != ""

/-- `PolestarAuth.need_token_refresh` (`auth.py` lines 84-95), with the
current aware clock `now`.  `refresh_window` is
`min((token_lifetime or 0) / 2, TOKEN_REFRESH_WINDOW_MIN)`; comparing
a naive expiry against the aware now would raise `TypeError`. -/
def need_token_refresh (st : AuthState) (now : ℚ) : Except PyExc Bool :=
  match st.token_expiry with
  | none => .error .polestarAuthException
  | some e =>
    if e.aware then
      .ok (decide (e.q - now < min ((st.token_lifetime.getD 0) / 2)
        TOKEN_REFRESH_WINDOW_MIN))
    else .error .typeError

/-- `PolestarAuth.is_token_valid` (`auth.py` lines 97-102). -/
def is_token_valid (st : AuthState) (now : ℚ) : Except PyExc Bool :=
  match st.access_token, st.token_expiry with
  | some _, some e =>
    if e.aware then .ok (decide (now < e.q)) else .error .typeError
  | _, _ => .ok false

/-- A response of the OIDC token endpoint: HTTP status plus either a
token payload or an error payload (`"error" in payload`). -/
structure TokenPayload where
  access_token : String
  refresh_token : String
  expires_in : ℚ
deriving Repr

/-- A token-endpoint response as consumed by `_parse_token_response`. -/
structure TokenResponse where
  status : Int
  payload : Except Unit TokenPayload

/-- Network interactions `get_token` can perform. -/
inductive AuthCall where
  | refreshRequest
  | codeFlowRequest
deriving DecidableEq, Repr

/-- Environment for `get_token`: what the token endpoint answers to the
refresh request, and the outcome of the whole authorization-code flow
(`.error` models `_get_code`/`_get_resume_path` raising
`PolestarAuthException`; their `latest_call_code` side effects are not
modelled). -/
structure AuthEnv where
  refreshResponse : TokenResponse
  codeFlow : Except Unit TokenResponse

/-- `PolestarAuth._parse_token_response` (`auth.py` lines 130-148):
record the HTTP status, raise `PolestarAuthException` on an error
payload, otherwise install the new tokens and set
`token_expiry = datetime.now(tz=timezone.utc) + expires_in` (an aware
instant). -/
def _parse_token_response (st : AuthState) (now : ℚ) (resp : TokenResponse) :
    Except PyExc Unit × AuthState :=
  let st1 := { st with latest_call_code := some resp.status }
  match resp.payload with
  | .error _ => (.error .polestarAuthException, st1)
  | .ok p =>
    (.ok (), { st1 with
        access_token := some p.access_token,
        refresh_token := some p.refresh_token,
        token_lifetime := some p.expires_in,
        token_expiry := some ⟨now + p.expires_in, true⟩ })

/-- The part of `PolestarAuth.get_token` after the fast-path check
(`auth.py` lines 116-128): if a truthy refresh token exists, attempt
`_token_refresh` and swallow a `PolestarAuthException` from it; then
UNCONDITIONALLY run `_authorization_code` — there is no early return
after a successful refresh, the only `return` of this region is after
the code flow. -/
def get_token_slow (st : AuthState) (now : ℚ) (env : AuthEnv) :
    Except PyExc Unit × AuthState × List AuthCall :=
  let refreshStep : AuthState × List AuthCall :=
    if pyTruthyOptStr st.refresh_token then
      match _parse_token_response st now env.refreshResponse with
      | (_, st1) => (st1, [.refreshRequest])
    else (st, [])
  match refreshStep with
  | (st1, tr1) =>
    match env.codeFlow with
    | .error _ => (.error .polestarAuthException, st1, tr1 ++ [.codeFlowRequest])
    | .ok resp =>
      match _parse_token_response st1 now resp with
      | (.ok _, st2) => (.ok (), st2, tr1 ++ [.codeFlowRequest])
      | (.error _, st2) =>
        (.error .polestarAuthException, st2, tr1 ++ [.codeFlowRequest])

/-- `PolestarAuth.get_token` (`auth.py` lines 104-128).  The fast path
returns untouched state and performs no network interaction when
`force` is false, an access token is present and the (aware) expiry
lies in the future; otherwise `get_token_slow` runs. -/
def get_token (st : AuthState) (now : ℚ) (force : Bool) (env : AuthEnv) :
    Except PyExc Unit × AuthState × List AuthCall :=
  if !force && st.access_token.isSome && st.token_expiry.isSome then
    match st.token_expiry with
    | some e =>
      if !e.aware then (.error .typeError, st, [])
      else if now < e.q then (.ok (), st, [])
      else get_token_slow st now env
    | none => get_token_slow st now env
  else get_token_slow st now env

/-- One per-VIN, per-kind cache slot (`polestar.py` lines 173-176 and
188-191): the raw payload and the (naive) fetch timestamp. -/
structure CacheEntry where
  data : GqlValue
  timestamp : ℚ

/-- The mutable state of `PolestarApi` (`polestar.py` lines 31-46).
`cache` is `cache_data_by_vin` read pointwise; `car_data_by_vin`
likewise. -/
structure ApiState where
  auth : AuthState
  updating : Bool
  latest_call_code : Option Int
  latest_call_code_2 : Option Int
  next_update : Option ℚ
  car_data_by_vin : String → Option GqlValue
  cache : String → String → Option CacheEntry

/-- Overwrite one (vin, kind) cache slot wholesale. -/
def setCache (c : String → String → Option CacheEntry) (vin kind : String)
    (e : CacheEntry) : String → String → Option CacheEntry :=
  fun v k => if v = vin ∧ k = kind then some e else c v k

/-- Overwrite one vin slot of `car_data_by_vin`. -/
def setVin (c : String → Option GqlValue) (vin : String) (d : GqlValue) :
    String → Option GqlValue :=
  fun v => if v = vin then some d else c v

/-- Outcome of one GraphQL telemetry query as seen by
`_get_odometer_data` / `_get_battery_data`: `success payload` is a 200
response whose `result["data"][kind]` is the (truthy) payload;
`emptyData` a 200 response with falsy `result` or `result["data"]` (no
cache write); `notAuthorized` and `apiError` are `_get_graph_ql`
raising `PolestarNotAuthorizedException` respectively
`PolestarApiException`. -/
inductive QueryOutcome where
  | success (payload : GqlValue)
  | emptyData
  | notAuthorized
  | apiError

/-- Environment for `get_ev_data`: the two query outcomes plus the
token-endpoint environment used if `call_api` re-acquires a token. -/
structure ApiEnv where
  odometer : QueryOutcome
  battery : QueryOutcome
  authEnv : AuthEnv

/-- The inner `call_api` wrapper of `get_ev_data` (`polestar.py` lines
111-121) applied to one query: on success write the cache slot; on
`PolestarNotAuthorizedException` call `self.auth.get_token()` (whose
`PolestarAuthException` would propagate out of `get_ev_data`); on
`PolestarApiException` record 500 for the V2 endpoint and continue.
`_get_graph_ql` records the HTTP status for the V2 endpoint before
raising (200 on success, 401 before `PolestarNotAuthorizedException`;
for `apiError` the handler overwrites it with 500). -/
def callApi (st : ApiState) (now : ℚ) (vin kind : String)
    (outcome : QueryOutcome) (authEnv : AuthEnv) :
    Except PyExc Unit × ApiState :=
  match outcome with
  | .success payload =>
    (.ok (),
      { st with
        latest_call_code_2 := some 200
        cache := setCache st.cache vin kind ⟨payload, now⟩ })
  | .emptyData => (.ok (), { st with latest_call_code_2 := some 200 })
  | .notAuthorized =>
    let st1 := { st with latest_call_code_2 := some 401 }
    match get_token st1.auth now false authEnv with
    | (.ok _, a1, _) => (.ok (), { st1 with auth := a1 })
    | (.error e, a1, _) => (.error e, { st1 with auth := a1 })
  | .apiError => (.ok (), { st with latest_call_code_2 := some 500 })

/-- `PolestarApi.get_ev_data` (`polestar.py` lines 89-124).

Gate and cooldown checks return immediately.  Then `updating` is set
and the token age is examined (`polestar.py` lines 100-109):

* `token_expiry is None`: `PolestarAuthException` is raised and caught,
  the status 500 is recorded for `BASE_URL`, the gate is released and
  the call returns;
* `token_expiry` present and AWARE — which is every expiry `auth.py`
  ever writes, see `_parse_token_response` — line 103 computes
  `self.auth.token_expiry - datetime.now()` and CPython raises
  `TypeError` (aware minus naive).  The except clause only catches
  `PolestarAuthException`, so the `TypeError` propagates with
  `updating` still `True`;
* `token_expiry` present and naive (unreachable through `auth.py`) with
  age below 300 s: `self.auth.get_token(refresh=True)` is called, but
  `PolestarAuth.get_token` accepts only `force` — CPython raises
  `TypeError` for the unexpected keyword, again uncaught;
* otherwise the two telemetry queries run, then the gate is released
  and `next_update` is set to now + 5 s. -/
def get_ev_data (st : ApiState) (now : ℚ) (vin : String) (env : ApiEnv) :
    Except PyExc Unit × ApiState :=
  if st.updating then (.ok (), st)
  else if (match st.next_update with
           | some t => decide (now < t)
           | none => false) then (.ok (), st)
  else
    let st1 := { st with updating := true }
    match st.auth.token_expiry with
    | none =>
      (.ok (), { st1 with latest_call_code := some 500, updating := false })
    | some e =>
      if e.aware then (.error .typeError, st1)
      else if e.q - now < 300 then (.error .typeError, st1)
      else
        match callApi st1 now vin ODO_METER_DATA env.odometer env.authEnv with
        | (.error e1, st2) => (.error e1, st2)
        | (.ok _, st2) =>
          match callApi st2 now vin BATTERY_DATA env.battery env.authEnv with
          | (.error e2, st3) => (.error e2, st3)
          | (.ok _, st3) =>
            (.ok (),
              { st3 with
                updating := false
                next_update := some (now + 5) })

/-- The method names `class PolestarAuth` defines in `auth.py`
(used for Python attribute lookup). -/
def authMethods : List String :=
  ["async_init", "async_logout", "update_oidc_configuration",
   "need_token_refresh", "is_token_valid", "get_token",
   "_parse_token_response", "_authorization_code", "_token_refresh",
   "_get_code", "_get_resume_path", "get_state", "get_code_verifier",
   "get_code_challenge"]

/-- Outcome of `_get_vehicle_data` (`polestar.py` lines 194-215):
`response (some cars)` is a truthy result whose `getConsumerCarsV2`
list is returned; `noCars` is a truthy result with a `None`/empty car
list (raises `PolestarNoDataException`); `response none` a falsy
result (returns `None`); the error constructors are `_get_graph_ql`
raising. -/
inductive VehicleOutcome where
  | response (cars : Option (List (String × GqlValue)))
  | noCars
  | notAuthorized
  | apiError

/-- Environment for `PolestarApi.init`. -/
structure InitEnv where
  authEnv : AuthEnv
  vehicles : VehicleOutcome

/-- `PolestarApi.init` lines 52-69, i.e. the body of its `try` block
AFTER the `await self.auth.init()` call (reachable only if
`PolestarAuth` had an `init` method). -/
def initRest (st : ApiState) (now : ℚ) (env : InitEnv) :
    Except PyExc Unit × ApiState :=
  match get_token st.auth now false env.authEnv with
  | (.error e, a1, _) => (.error e, { st with auth := a1 })
  | (.ok _, a1, _) =>
    let st1 := { st with auth := a1 }
    if a1.access_token.isNone then (.ok (), st1)
    else
      match env.vehicles with
      | .apiError => (.error .polestarApiException, st1)
      | .notAuthorized => (.error .polestarNotAuthorized, st1)
      | .noCars => (.error .polestarNoData, st1)
      | .response none => (.ok (), st1)
      | .response (some cars) =>
        if cars.isEmpty then (.ok (), st1)
        else
          (.ok (), cars.foldl (fun acc c =>
            { acc with
              car_data_by_vin := setVin acc.car_data_by_vin c.1 c.2,
              cache := setCache acc.cache c.1 CAR_INFO_DATA ⟨c.2, now⟩ }) st1)

/-- `PolestarApi.init` (`polestar.py` lines 48-72).  Its first statement
is `await self.auth.init()`, but `PolestarAuth` (`auth.py`) defines
`async_init` and no `init` — the attribute lookup raises
`AttributeError` on every call.  The surrounding
`except PolestarAuthException` clause logs and swallows ONLY
`PolestarAuthException` (returning normally), so the `AttributeError`
propagates. -/
def PolestarApi.init (st : ApiState) (now : ℚ) (env : InitEnv) :
    Except PyExc Unit × ApiState :=
  let tryBlock : Except PyExc Unit × ApiState :=
    if authMethods.contains "init" then initRest st now env
    else (.error .attributeError, st)
  match tryBlock with
  | (.error .polestarAuthException, st1) => (.ok (), st1)
  | r => r

/-- Specification-side path resolution, following the claim wording:
the value reached by looking each key up in a mapping at every level;
`none` when a key is absent at some level or a non-mapping value is
reached before the keys are exhausted. -/
def resolvePath : List String → GqlValue → Option GqlValue
  | [], v => some v
  | k :: rest, .dict es =>
    match es.lookup k with
    | some v => resolvePath rest v
    | none => none
  | _ :: _, _ => none

/-- A concrete `getBatteryData` document: `chargerConnectionStatus` is
present-as-`None`, `chargingStatus` holds an unknown enum name,
`chargingCurrentAmps` is `None` and `chargingPowerWatts` is a true
zero. -/
def exampleBatteryDoc : GqlEntries :=
  .cons "chargerConnectionStatus" .null
    (.cons "chargingStatus" (.str "BOGUS")
      (.cons "averageEnergyConsumptionKwhPer100Km" (.float 22)
        (.cons "batteryChargeLevelPercentage" (.int 34)
          (.cons "chargingCurrentAmps" .null
            (.cons "chargingPowerWatts" (.int 0)
              (.cons "estimatedChargingTimeMinutesToTargetDistance" (.int 0)
                (.cons "estimatedChargingTimeToFullMinutes" (.int 0)
                  (.cons "estimatedDistanceToEmptyKm" (.int 150)
                    (.cons "eventUpdatedTimestamp"
                      (.dict (.cons "iso" .null .nil)) .nil)))))))))

/-- The snapshot `CarBatteryData.from_dict` produces for
`exampleBatteryDoc` at time 0. -/
def exampleBatteryResult : CarBatteryData :=
  { average_energy_consumption_kwh_per_100km := some 22
    battery_charge_level_percentage := some 34
    charger_connection_status := .unspecified
    charging_current_amps := 0
    charging_power_watts := 0
    charging_status := .unspecified
    estimated_charging_time_minutes_to_target_distance := some 0
    estimated_charging_time_to_full_minutes := some 0
    estimated_distance_to_empty_km := some 150
    event_updated_timestamp := none
    received_timestamp := 0 }

theorem gqlTraverse_resolvePath (fn : String) :
    ∀ (keys : List String) (v : GqlValue),
      (∀ r, resolvePath keys v = some r → gqlTraverse fn keys v = .ok r) ∧
      (resolvePath keys v = none →
        ∃ m, gqlTraverse fn keys v = .error (.keyError m)) := by
  intro keys
  induction keys with
  | nil =>
    intro v
    constructor
    · intro r h
      simp [resolvePath] at h
      simp [gqlTraverse, h]
    · intro h
      simp [resolvePath] at h
  | cons k rest ih =>
    intro v
    match v with
    | .null | .bool _ | .int _ | .float _ | .str _ =>
      refine ⟨?_, ?_⟩ <;> intro h <;> simp [resolvePath, gqlTraverse] at *
    | .dict es =>
      constructor
      · intro r h
        simp only [resolvePath] at h
        cases hlk : es.lookup k with
        | none => rw [hlk] at h; simp at h
        | some v2 =>
          rw [hlk] at h
          simp only [gqlTraverse, hlk]
          exact (ih v2).1 r h
      · intro h
        simp only [resolvePath] at h
        cases hlk : es.lookup k with
        | none =>
          exact ⟨"Key " ++ k ++ " not found in path " ++ fn,
            by simp [gqlTraverse, hlk]⟩
        | some v2 =>
          rw [hlk] at h
          obtain ⟨m, hm⟩ := (ih v2).2 h
          exact ⟨m, by simp [gqlTraverse, hlk, hm]⟩

/-- C6: for a document (a mapping, the `GqlDict` type of `utils.py`)
and a non-(whitespace-only) path, `get_field_name_value` returns the
value reached when every key on the path is present in a mapping at
each level, raises `KeyError` when the traversal gets stuck, and for
every document an empty or whitespace-only path raises `ValueError`. -/
theorem field_extractor_traversal_spec :
    ∀ (name : String) (es : GqlEntries),
      (isWhitespaceOnly name = false →
        (∀ v, resolvePath (splitPath name) (.dict es) = some v →
          get_field_name_value name (.dict es) = .ok v) ∧
        (resolvePath (splitPath name) (.dict es) = none →
          ∃ m, get_field_name_value name (.dict es) = .error (.keyError m))) ∧
      (isWhitespaceOnly name = true →
        ∀ d, get_field_name_value name d =
          .error (.valueError "Field name cannot be empty")) := by
  intro name es
  constructor
  · intro hws
    have h := gqlTraverse_resolvePath name (splitPath name) (.dict es)
    constructor
    · intro v hv
      have := h.1 v hv
      simp [get_field_name_value, hws, this]
    · intro hn
      obtain ⟨m, hm⟩ := h.2 hn
      exact ⟨m, by simp [get_field_name_value, hws, hm]⟩
  · intro hws d
    simp [get_field_name_value, hws]

/-- Witness for C6 at a concrete document and path. -/
theorem field_extractor_traversal_spec_witness :
    isWhitespaceOnly "a/b" = false ∧
    resolvePath (splitPath "a/b")
      (.dict (.cons "a" (.dict (.cons "b" (.int 7) .nil)) .nil)) =
      some (.int 7) ∧
    get_field_name_value "a/b"
      (.dict (.cons "a" (.dict (.cons "b" (.int 7) .nil)) .nil)) =
      .ok (.int 7) := by
  refine ⟨by decide, by decide, ?_⟩
  exact (field_extractor_traversal_spec "a/b"
    (.cons "a" (.dict (.cons "b" (.int 7) .nil)) .nil)).1 (by decide)
    |>.1 (.int 7) (by decide)

/-- C7 (amended): given a successful raw lookup, the `int` and `float`
variants behave as the claim states (raw `None` gives `None`; a
present non-`None` value gives either a coerced value or `ValueError`,
never a silent `None`), but the `str` variant returns the value only
when it is a non-empty string and otherwise returns `None` without
ever raising, and the `date`/`datetime` variants return `None` for
every falsy value and for every truthy non-string, raising `ValueError`
only for a truthy string that fails to parse. -/
theorem typed_variants_amended :
    ∀ (name : String) (d : GqlValue) (v : GqlValue),
      get_field_name_value name d = .ok v →
      ((v = .null →
          get_field_name_str name d = .ok none ∧
          get_field_name_int name d = .ok none ∧
          get_field_name_float name d = .ok none ∧
          get_field_name_date name d = .ok none ∧
          get_field_name_datetime name d = .ok none) ∧
       (v ≠ .null →
          ((∃ n, get_field_name_int name d = .ok (some n)) ∨
           (∃ m, get_field_name_int name d = .error (.valueError m)))) ∧
       (v ≠ .null →
          ((∃ q, get_field_name_float name d = .ok (some q)) ∨
           (∃ m, get_field_name_float name d = .error (.valueError m)))) ∧
       (get_field_name_str name d =
          .ok (match v with
               | .str s => if s = "" then none else some s
               | _ => none)) ∧
       (v.truthy = false →
          get_field_name_date name d = .ok none ∧
          get_field_name_datetime name d = .ok none) ∧
       (∀ s, v = .str s → s ≠ "" →
          get_field_name_date name d =
            (match date_fromisoformat s with
             | some dd => .ok (some dd)
             | none =>
               .error (.valueError ("Invalid date format at " ++ name))) ∧
          get_field_name_datetime name d =
            (match datetime_fromisoformat s with
             | some dd => .ok (some dd)
             | none =>
               .error (.valueError ("Invalid datetime format at " ++ name)))) ∧
       (v.truthy = true → v.isStr = false →
          get_field_name_date name d = .ok none ∧
          get_field_name_datetime name d = .ok none)) := by
  intro name d v h
  refine ⟨?_, ?_, ?_, ?_, ?_, ?_, ?_⟩
  · rintro rfl
    refine ⟨?_, ?_, ?_, ?_, ?_⟩ <;>
      simp [get_field_name_str, get_field_name_int, get_field_name_float,
        get_field_name_date, get_field_name_datetime, h, GqlValue.truthy]
  · intro hv
    match v with
    | .null => exact absurd rfl hv
    | .bool b =>
      cases b <;>
        simp [get_field_name_int, h, GqlValue.truthy, GqlValue.isPyInt,
          GqlValue.intVal, pyIntCoerce]
    | .int n =>
      by_cases hn : n = 0 <;>
        simp [get_field_name_int, h, GqlValue.truthy, GqlValue.isPyInt,
          GqlValue.intVal, pyIntCoerce, hn]
    | .float q =>
      simp [get_field_name_int, h, GqlValue.truthy, GqlValue.isPyInt,
        pyIntCoerce]
    | .str s =>
      cases hp : pyIntOfString s with
      | none =>
        right
        exact ⟨"Invalid integer value at " ++ name,
          by simp [get_field_name_int, h, GqlValue.truthy,
            GqlValue.isPyInt, pyIntCoerce, hp]⟩
      | some n =>
        left
        exact ⟨n, by simp [get_field_name_int, h, GqlValue.truthy,
          GqlValue.isPyInt, pyIntCoerce, hp]⟩
    | .dict es =>
      cases es <;>
        simp [get_field_name_int, h, GqlValue.truthy, GqlValue.isPyInt,
          pyIntCoerce]
  · intro hv
    match v with
    | .null => exact absurd rfl hv
    | .bool b =>
      cases b <;>
        simp [get_field_name_float, h, GqlValue.truthy, GqlValue.isPyFloat,
          pyFloatCoerce]
    | .int n =>
      by_cases hn : n = 0 <;>
        simp [get_field_name_float, h, GqlValue.truthy, GqlValue.isPyFloat,
          pyFloatCoerce, hn]
    | .float q =>
      by_cases hq : q = 0 <;>
        simp [get_field_name_float, h, GqlValue.truthy, GqlValue.isPyFloat,
          pyFloatCoerce, hq]
    | .str s =>
      cases hp : pyFloatOfString s with
      | none =>
        right
        exact ⟨"Invalid float value at " ++ name,
          by simp [get_field_name_float, h, GqlValue.truthy,
            GqlValue.isPyFloat, pyFloatCoerce, hp]⟩
      | some q =>
        left
        exact ⟨q, by simp [get_field_name_float, h, GqlValue.truthy,
          GqlValue.isPyFloat, pyFloatCoerce, hp]⟩
    | .dict es =>
      cases es <;>
        simp [get_field_name_float, h, GqlValue.truthy, GqlValue.isPyFloat,
          pyFloatCoerce]
  · match v with
    | .null | .bool _ | .int _ | .float _ =>
      simp [get_field_name_str, h, GqlValue.truthy, GqlValue.isStr]
    | .str s =>
      by_cases hs : s = "" <;>
        simp [get_field_name_str, h, GqlValue.truthy, GqlValue.isStr, hs]
    | .dict es =>
      cases es <;>
        simp [get_field_name_str, h, GqlValue.truthy, GqlValue.isStr]
  · intro hf
    constructor <;>
      simp [get_field_name_date, get_field_name_datetime, h, hf]
  · rintro s rfl hs
    constructor
    · simp only [get_field_name_date, h, GqlValue.truthy]
      rw [if_pos (by simp [hs])]
    · simp only [get_field_name_datetime, h, GqlValue.truthy]
      rw [if_pos (by simp [hs])]
  · intro ht hns
    match v with
    | .str _ => simp [GqlValue.isStr] at hns
    | .null | .bool _ | .int _ | .float _ | .dict _ =>
      constructor <;>
        simp [get_field_name_date, get_field_name_datetime, h, ht]

/-- C7 counterexample: the value `5` at path `a` is present and
non-`None`, yet `get_field_name_str` silently returns `None` — it
neither returns a coerced string nor raises `ValueError`. -/
theorem typed_variants_counterexample :
    get_field_name_str "a" (.dict (.cons "a" (.int 5) .nil)) = .ok none := by
  rfl

/-- Witness for C7 (amended) at concrete inputs. -/
theorem typed_variants_amended_witness :
    get_field_name_value "k" (.dict (.cons "k" (.str "12") .nil)) =
      .ok (.str "12") ∧
    ((∃ n, get_field_name_int "k" (.dict (.cons "k" (.str "12") .nil)) =
        .ok (some n)) ∨
     (∃ m, get_field_name_int "k" (.dict (.cons "k" (.str "12") .nil)) =
        .error (.valueError m))) ∧
    get_field_name_str "k" (.dict (.cons "k" (.str "12") .nil)) =
      .ok (some "12") := by
  have h : get_field_name_value "k" (.dict (.cons "k" (.str "12") .nil)) =
      .ok (.str "12") := rfl
  refine ⟨h, ?_, ?_⟩
  · exact (typed_variants_amended "k" _ _ h).2.1 (by decide)
  · have hs := (typed_variants_amended "k" _ _ h).2.2.2.1
    simpa using hs

theorem digitVal_digitChar (k : Nat) (h : k < 10) :
    digitVal (Nat.digitChar k) = some k := by
  interval_cases k <;> decide

theorem parse2_pad2 (n : Nat) (h : n < 100) :
    parse2 (Nat.digitChar (n / 10 % 10)) (Nat.digitChar (n % 10)) = some n := by
  have h1 : n / 10 % 10 < 10 := Nat.mod_lt _ (by norm_num)
  have h2 : n % 10 < 10 := Nat.mod_lt _ (by norm_num)
  simp [parse2, digitVal_digitChar _ h1, digitVal_digitChar _ h2]
  omega

theorem parse4_pad4 (n : Nat) (h : n < 10000) :
    parse4 (Nat.digitChar (n / 1000 % 10)) (Nat.digitChar (n / 100 % 10))
      (Nat.digitChar (n / 10 % 10)) (Nat.digitChar (n % 10)) = some n := by
  have h1 : n / 1000 % 10 < 10 := Nat.mod_lt _ (by norm_num)
  have h2 : n / 100 % 10 < 10 := Nat.mod_lt _ (by norm_num)
  have h3 : n / 10 % 10 < 10 := Nat.mod_lt _ (by norm_num)
  have h4 : n % 10 < 10 := Nat.mod_lt _ (by norm_num)
  simp [parse4, digitVal_digitChar _ h1, digitVal_digitChar _ h2,
    digitVal_digitChar _ h3, digitVal_digitChar _ h4]
  omega

theorem daysInMonth_le (y m : Nat) : daysInMonth y m ≤ 31 := by
  unfold daysInMonth
  split_ifs <;> norm_num

theorem date_isoformat_roundtrip (d : PyDate) (h : d.validB = true) :
    date_fromisoformat d.isoformat = some d := by
  obtain ⟨y, m, dd⟩ := d
  have hb := h
  simp only [PyDate.validB, Bool.and_eq_true, decide_eq_true_eq] at h
  obtain ⟨⟨⟨⟨⟨hy1, hy2⟩, hm1⟩, hm2⟩, hd1⟩, hd2⟩ := h
  have hdm : daysInMonth y m ≤ 31 := daysInMonth_le y m
  have hy : y < 10000 := by omega
  have hm : m < 100 := by omega
  have hd : dd < 100 := by omega
  simp only [PyDate.isoformat, pad4, pad2, date_fromisoformat,
    List.cons_append, List.nil_append]
  simp only [parse4_pad4 y hy, parse2_pad2 m hm, parse2_pad2 dd hd]
  simp [hb]

theorem parseOffset_offsetChars (o : Option Int)
    (h : ∀ x, o = some x → x.natAbs < 1440) :
    parseOffset (offsetChars o) = some o := by
  match o with
  | none => rfl
  | some x =>
    have hx : x.natAbs < 1440 := h x rfl
    have hh : x.natAbs / 60 < 100 := by omega
    have hmm : x.natAbs % 60 < 100 := by omega
    have hh24 : x.natAbs / 60 < 24 := by omega
    have hmm60 : x.natAbs % 60 < 60 := by omega
    by_cases hneg : x < 0
    · simp only [offsetChars, if_pos hneg, pad2, List.cons_append,
        List.nil_append, parseOffset]
      rw [if_pos (by simp)]
      simp only [parse2_pad2 _ hh, parse2_pad2 _ hmm]
      rw [if_pos ⟨hh24, hmm60⟩]
      simp only [if_true]
      congr 1
      congr 1
      omega
    · simp only [offsetChars, if_neg hneg, pad2, List.cons_append,
        List.nil_append, parseOffset]
      rw [if_pos (by simp)]
      simp only [parse2_pad2 _ hh, parse2_pad2 _ hmm]
      rw [if_pos ⟨hh24, hmm60⟩]
      rw [if_neg (by decide)]
      congr 1
      congr 1
      omega

theorem datetime_isoformat_roundtrip (t : PyDateTime) (h : t.validB = true) :
    datetime_fromisoformat t.isoformat = some t := by
  obtain ⟨y, mo, da, hr, mi, se, off⟩ := t
  have hb := h
  simp only [PyDateTime.validB, PyDate.validB, Bool.and_eq_true,
    decide_eq_true_eq] at h
  obtain ⟨⟨⟨⟨hdate, hhr⟩, hmi⟩, hse⟩, hoff⟩ := h
  obtain ⟨⟨⟨⟨⟨hy1, hy2⟩, hm1⟩, hm2⟩, hd1⟩, hd2⟩ := hdate
  have hdm : daysInMonth y mo ≤ 31 := daysInMonth_le y mo
  have hy : y < 10000 := by omega
  have hm' : mo < 100 := by omega
  have hd' : da < 100 := by omega
  have hhr' : hr < 100 := by omega
  have hmi' : mi < 100 := by omega
  have hse' : se < 100 := by omega
  have hoffB : ∀ x, off = some x → x.natAbs < 1440 := by
    intro x hx
    rw [hx] at hoff
    simpa using hoff
  simp only [PyDateTime.isoformat, pad4, pad2, datetime_fromisoformat,
    List.cons_append, List.nil_append]
  rw [if_pos (by simp)]
  simp only [parse4_pad4 y hy, parse2_pad2 mo hm', parse2_pad2 da hd',
    parse2_pad2 hr hhr', parse2_pad2 mi hmi', parse2_pad2 se hse']
  rw [parseOffset_offsetChars off hoffB]
  simp [hb]

theorem splitPathAux_no_slash :
    ∀ (cs : List Char) (acc : List Char), '/' ∉ cs →
      splitPathAux cs acc = [⟨acc.reverse ++ cs⟩] := by
  intro cs
  induction cs with
  | nil => intro acc _; simp [splitPathAux]
  | cons c rest ih =>
    intro acc hns
    have hc : c ≠ '/' := fun hc => hns (by simp [hc])
    have hrest : '/' ∉ rest := fun hr => hns (by simp [hr])
    simp only [splitPathAux]
    rw [if_neg hc]
    rw [ih (c :: acc) hrest]
    simp

theorem splitPath_no_slash (s : String) (h : '/' ∉ s.data) :
    splitPath s = [s] := by
  unfold splitPath
  rw [splitPathAux_no_slash s.data [] h]
  simp

theorem single_key_value (name : String) (es : GqlEntries) (v : GqlValue)
    (hws : isWhitespaceOnly name = false) (hns : '/' ∉ name.data)
    (hl : es.lookup name = some v) :
    get_field_name_value name (.dict es) = .ok v := by
  simp [get_field_name_value, hws, splitPath_no_slash name hns,
    gqlTraverse, hl]

theorem mk_cons_ne_empty (c : Char) (l : List Char) :
    (⟨c :: l⟩ : String) ≠ "" := by
  intro h
  have := congrArg String.data h
  simp at this

theorem pydate_isoformat_ne_empty (d : PyDate) : d.isoformat ≠ "" := by
  simp only [PyDate.isoformat, pad4, List.cons_append]
  exact mk_cons_ne_empty _ _

theorem pydatetime_isoformat_ne_empty (t : PyDateTime) : t.isoformat ≠ "" := by
  simp only [PyDateTime.isoformat, pad4, List.cons_append]
  exact mk_cons_ne_empty _ _

/-- C9 (amended): for a single-key path, a document holding the
ISO-8601 rendering of a date (resp. datetime) round-trips to exactly
that value; a present NON-EMPTY string that fails to parse raises
`ValueError`; a `None` raw value returns `None` without raising.  (An
empty string — also not valid ISO-8601 — returns `None` instead of
raising; see the counterexample.) -/
theorem iso_roundtrip_amended :
    ∀ (name : String) (es : GqlEntries),
      isWhitespaceOnly name = false → '/' ∉ name.data →
      ((∀ d : PyDate, d.validB = true →
          es.lookup name = some (.str d.isoformat) →
          get_field_name_date name (.dict es) = .ok (some d)) ∧
       (∀ t : PyDateTime, t.validB = true →
          es.lookup name = some (.str t.isoformat) →
          get_field_name_datetime name (.dict es) = .ok (some t)) ∧
       (∀ s, es.lookup name = some (.str s) → s ≠ "" →
          date_fromisoformat s = none →
          get_field_name_date name (.dict es) =
            .error (.valueError ("Invalid date format at " ++ name))) ∧
       (∀ s, es.lookup name = some (.str s) → s ≠ "" →
          datetime_fromisoformat s = none →
          get_field_name_datetime name (.dict es) =
            .error (.valueError ("Invalid datetime format at " ++ name))) ∧
       (es.lookup name = some .null →
          get_field_name_date name (.dict es) = .ok none ∧
          get_field_name_datetime name (.dict es) = .ok none)) := by
  intro name es hws hns
  refine ⟨?_, ?_, ?_, ?_, ?_⟩
  · intro d hv hl
    have hg := single_key_value name es _ hws hns hl
    simp only [get_field_name_date, hg, GqlValue.truthy]
    rw [if_pos (by simp [pydate_isoformat_ne_empty d])]
    rw [date_isoformat_roundtrip d hv]
  · intro t hv hl
    have hg := single_key_value name es _ hws hns hl
    simp only [get_field_name_datetime, hg, GqlValue.truthy]
    rw [if_pos (by simp [pydatetime_isoformat_ne_empty t])]
    rw [datetime_isoformat_roundtrip t hv]
  · intro s hl hne hp
    have hg := single_key_value name es _ hws hns hl
    simp only [get_field_name_date, hg, GqlValue.truthy]
    rw [if_pos (by simp [hne])]
    rw [hp]
  · intro s hl hne hp
    have hg := single_key_value name es _ hws hns hl
    simp only [get_field_name_datetime, hg, GqlValue.truthy]
    rw [if_pos (by simp [hne])]
    rw [hp]
  · intro hl
    have hg := single_key_value name es _ hws hns hl
    constructor <;> simp [get_field_name_date, get_field_name_datetime, hg]

/-- C9 counterexample: an empty string at the path is a present string
value that is not valid ISO-8601, yet `get_field_name_date` returns
`None` instead of raising `ValueError` (the walrus truthiness test
short-circuits before parsing). -/
theorem iso_roundtrip_counterexample :
    get_field_name_date "a" (.dict (.cons "a" (.str "") .nil)) = .ok none := by
  rfl

/-- Witness for C9 (amended) at 2024-04-16 and
2024-11-11T17:47:13+00:00. -/
theorem iso_roundtrip_amended_witness :
    isWhitespaceOnly "k" = false ∧
    PyDate.validB ⟨2024, 4, 16⟩ = true ∧
    PyDateTime.validB ⟨2024, 11, 11, 17, 47, 13, some 0⟩ = true ∧
    get_field_name_date "k"
      (.dict (.cons "k" (.str (PyDate.isoformat ⟨2024, 4, 16⟩)) .nil)) =
      .ok (some ⟨2024, 4, 16⟩) ∧
    get_field_name_datetime "k"
      (.dict (.cons "k"
        (.str (PyDateTime.isoformat ⟨2024, 11, 11, 17, 47, 13, some 0⟩))
        .nil)) =
      .ok (some ⟨2024, 11, 11, 17, 47, 13, some 0⟩) := by
  have h := iso_roundtrip_amended "k"
    (.cons "k" (.str (PyDate.isoformat ⟨2024, 4, 16⟩)) .nil)
    (by decide) (by decide)
  have h2 := iso_roundtrip_amended "k"
    (.cons "k"
      (.str (PyDateTime.isoformat ⟨2024, 11, 11, 17, 47, 13, some 0⟩))
      .nil)
    (by decide) (by decide)
  refine ⟨by decide, by decide, by decide, ?_, ?_⟩
  · exact h.1 ⟨2024, 4, 16⟩ (by decide) rfl
  · exact h2.2.1 ⟨2024, 11, 11, 17, 47, 13, some 0⟩ (by decide) rfl

theorem except_bind_ok {α β : Type} {x : Except PyExc α}
    {f : α → Except PyExc β} {b : β} (h : (x >>= f) = .ok b) :
    ∃ a, x = .ok a ∧ f a = .ok b := by
  cases x with
  | error e => simp [Bind.bind, Except.bind] at h
  | ok a => exact ⟨a, rfl, by simpa [Bind.bind, Except.bind] using h⟩

theorem battery_from_dict_fields (data : GqlValue) (now : ℚ)
    (r : CarBatteryData) (h : CarBatteryData.from_dict data now = .ok r) :
    (∃ c, batteryCcs data = .ok c ∧ r.charger_connection_status = c) ∧
    (∃ c, batteryCs data = .ok c ∧ r.charging_status = c) ∧
    (∃ o, get_field_name_int "chargingCurrentAmps" data = .ok o ∧
      r.charging_current_amps = pyOrZero o) ∧
    (∃ o, get_field_name_int "chargingPowerWatts" data = .ok o ∧
      r.charging_power_watts = pyOrZero o) := by
  match data with
  | .null | .bool _ | .int _ | .float _ | .str _ =>
    simp [CarBatteryData.from_dict] at h
  | .dict es =>
    simp only [CarBatteryData.from_dict] at h
    obtain ⟨ccs, h1, h⟩ := except_bind_ok h
    obtain ⟨cs, h2, h⟩ := except_bind_ok h
    obtain ⟨aec, h3, h⟩ := except_bind_ok h
    obtain ⟨bclp, h4, h⟩ := except_bind_ok h
    obtain ⟨amps, h5, h⟩ := except_bind_ok h
    obtain ⟨watts, h6, h⟩ := except_bind_ok h
    obtain ⟨e1, h7, h⟩ := except_bind_ok h
    obtain ⟨e2, h8, h⟩ := except_bind_ok h
    obtain ⟨e3, h9, h⟩ := except_bind_ok h
    obtain ⟨ts, h10, h⟩ := except_bind_ok h
    rw [Except.ok.injEq] at h
    subst h
    exact ⟨⟨ccs, h1, rfl⟩, ⟨cs, h2, rfl⟩, ⟨amps, h5, rfl⟩, ⟨watts, h6, rfl⟩⟩

/-- C8: each `from_dict` raises `TypeError` on non-mapping input
(including `None`) and `KeyError` on an empty dict, and in
`CarBatteryData.from_dict` a `chargerConnectionStatus` or
`chargingStatus` raw value that is present-as-`None` or not a known
enum member name maps to the `Unspecified` variant instead of
raising. -/
theorem from_dict_error_and_enum_robustness :
    (∀ (v : GqlValue) (now : ℚ), v.isDict = false →
      CarInformationData.from_dict v now = .error .typeError ∧
      CarOdometerData.from_dict v now = .error .typeError ∧
      CarBatteryData.from_dict v now = .error .typeError) ∧
    (∃ m, CarInformationData.from_dict (.dict .nil) 0 =
      .error (.keyError m)) ∧
    (∃ m, CarOdometerData.from_dict (.dict .nil) 0 =
      .error (.keyError m)) ∧
    (∃ m, CarBatteryData.from_dict (.dict .nil) 0 =
      .error (.keyError m)) ∧
    (∀ (es : GqlEntries) (now : ℚ) (r : CarBatteryData),
      CarBatteryData.from_dict (.dict es) now = .ok r →
      ((es.lookup "chargerConnectionStatus" = some .null →
          r.charger_connection_status = .unspecified) ∧
       (∀ s, es.lookup "chargerConnectionStatus" = some (.str s) →
          ccsNameLookup s = none →
          r.charger_connection_status = .unspecified) ∧
       (es.lookup "chargingStatus" = some .null →
          r.charging_status = .unspecified) ∧
       (∀ s, es.lookup "chargingStatus" = some (.str s) →
          csNameLookup s = none → r.charging_status = .unspecified))) := by
  refine ⟨?_, ?_, ?_, ?_, ?_⟩
  · intro v now hv
    match v with
    | .dict _ => simp [GqlValue.isDict] at hv
    | .null | .bool _ | .int _ | .float _ | .str _ => exact ⟨rfl, rfl, rfl⟩
  · exact ⟨"Key vin not found in path vin", rfl⟩
  · exact ⟨"Key averageSpeedKmPerHour not found in path averageSpeedKmPerHour",
      rfl⟩
  · exact ⟨String.append "Key averageEnergyConsumptionKwhPer100Km "
      "not found in path averageEnergyConsumptionKwhPer100Km", rfl⟩
  · intro es now r h
    obtain ⟨⟨ccs, hccs, hr1⟩, ⟨cs, hcs, hr2⟩, _, _⟩ :=
      battery_from_dict_fields _ _ _ h
    refine ⟨?_, ?_, ?_, ?_⟩
    · intro hl
      have hg := single_key_value "chargerConnectionStatus" es .null
        (by decide) (by decide) hl
      have hv : batteryCcs (.dict es) = .ok .unspecified := by
        simp [batteryCcs, get_field_name_str, hg, GqlValue.truthy]
      rw [hccs] at hv
      rw [hr1]
      exact Except.ok.inj hv
    · intro s hl hn
      have hg := single_key_value "chargerConnectionStatus" es (.str s)
        (by decide) (by decide) hl
      by_cases hs : s = ""
      · have hv : batteryCcs (.dict es) = .ok .unspecified := by
          simp [batteryCcs, get_field_name_str, hg, GqlValue.truthy,
            GqlValue.isStr, hs]
        rw [hccs] at hv
        rw [hr1]
        exact Except.ok.inj hv
      · have hv : batteryCcs (.dict es) = .ok .unspecified := by
          simp [batteryCcs, get_field_name_str, hg, GqlValue.truthy,
            GqlValue.isStr, hs, hn]
        rw [hccs] at hv
        rw [hr1]
        exact Except.ok.inj hv
    · intro hl
      have hg := single_key_value "chargingStatus" es .null
        (by decide) (by decide) hl
      have hv : batteryCs (.dict es) = .ok .unspecified := by
        simp [batteryCs, get_field_name_str, hg, GqlValue.truthy]
      rw [hcs] at hv
      rw [hr2]
      exact Except.ok.inj hv
    · intro s hl hn
      have hg := single_key_value "chargingStatus" es (.str s)
        (by decide) (by decide) hl
      by_cases hs : s = ""
      · have hv : batteryCs (.dict es) = .ok .unspecified := by
          simp [batteryCs, get_field_name_str, hg, GqlValue.truthy,
            GqlValue.isStr, hs]
        rw [hcs] at hv
        rw [hr2]
        exact Except.ok.inj hv
      · have hv : batteryCs (.dict es) = .ok .unspecified := by
          simp [batteryCs, get_field_name_str, hg, GqlValue.truthy,
            GqlValue.isStr, hs, hn]
        rw [hcs] at hv
        rw [hr2]
        exact Except.ok.inj hv

/-- Witness for C8 at concrete inputs. -/
theorem from_dict_error_and_enum_robustness_witness :
    GqlValue.isDict .null = false ∧
    CarInformationData.from_dict .null 0 = .error .typeError ∧
    (∃ m, CarBatteryData.from_dict (.dict .nil) 0 = .error (.keyError m)) ∧
    CarBatteryData.from_dict (.dict exampleBatteryDoc) 0 =
      .ok exampleBatteryResult ∧
    exampleBatteryResult.charger_connection_status = .unspecified ∧
    exampleBatteryResult.charging_status = .unspecified := by
  have hthm := from_dict_error_and_enum_robustness
  have hok : CarBatteryData.from_dict (.dict exampleBatteryDoc) 0 =
      .ok exampleBatteryResult := by rfl
  have henum := hthm.2.2.2.2 exampleBatteryDoc 0 exampleBatteryResult hok
  exact ⟨rfl, (hthm.1 .null 0 rfl).1, hthm.2.2.2.1, hok,
    henum.1 rfl, henum.2.2.2 "BOGUS" rfl rfl⟩

/-- C10: whenever `CarBatteryData.from_dict` succeeds, the
`charging_current_amps` and `charging_power_watts` fields are plain
integers (never `None` — their type in the model is `Int`), and a raw
value that is `None` or a true `0` both produce the field value `0`
via `get_field_name_int(...) or 0`, so the two raw states are
indistinguishable in the snapshot. -/
theorem battery_charging_defaults_zero :
    ∀ (es : GqlEntries) (now : ℚ) (r : CarBatteryData),
      CarBatteryData.from_dict (.dict es) now = .ok r →
      ((es.lookup "chargingCurrentAmps" = some .null ∨
          es.lookup "chargingCurrentAmps" = some (.int 0)) →
        r.charging_current_amps = 0) ∧
      ((es.lookup "chargingPowerWatts" = some .null ∨
          es.lookup "chargingPowerWatts" = some (.int 0)) →
        r.charging_power_watts = 0) := by
  intro es now r h
  obtain ⟨_, _, ⟨amps, hamps, hr1⟩, ⟨watts, hwatts, hr2⟩⟩ :=
    battery_from_dict_fields _ _ _ h
  constructor
  · rintro (hl | hl)
    · have hg := single_key_value "chargingCurrentAmps" es .null
        (by decide) (by decide) hl
      have hv : get_field_name_int "chargingCurrentAmps" (.dict es) =
          .ok none := by
        simp [get_field_name_int, hg, GqlValue.truthy]
      rw [hamps] at hv
      rw [hr1, Except.ok.inj hv]
      rfl
    · have hg := single_key_value "chargingCurrentAmps" es (.int 0)
        (by decide) (by decide) hl
      have hv : get_field_name_int "chargingCurrentAmps" (.dict es) =
          .ok (some 0) := by
        simp [get_field_name_int, hg, GqlValue.truthy, GqlValue.isPyInt,
          pyIntCoerce]
      rw [hamps] at hv
      rw [hr1, Except.ok.inj hv]
      rfl
  · rintro (hl | hl)
    · have hg := single_key_value "chargingPowerWatts" es .null
        (by decide) (by decide) hl
      have hv : get_field_name_int "chargingPowerWatts" (.dict es) =
          .ok none := by
        simp [get_field_name_int, hg, GqlValue.truthy]
      rw [hwatts] at hv
      rw [hr2, Except.ok.inj hv]
      rfl
    · have hg := single_key_value "chargingPowerWatts" es (.int 0)
        (by decide) (by decide) hl
      have hv : get_field_name_int "chargingPowerWatts" (.dict es) =
          .ok (some 0) := by
        simp [get_field_name_int, hg, GqlValue.truthy, GqlValue.isPyInt,
          pyIntCoerce]
      rw [hwatts] at hv
      rw [hr2, Except.ok.inj hv]
      rfl

/-- Witness for C10: in `exampleBatteryDoc` the raw
`chargingCurrentAmps` is `None` and the raw `chargingPowerWatts` is a
true `0`; the resulting fields are both `0`. -/
theorem battery_charging_defaults_zero_witness :
    exampleBatteryDoc.lookup "chargingCurrentAmps" = some .null ∧
    exampleBatteryDoc.lookup "chargingPowerWatts" = some (.int 0) ∧
    exampleBatteryResult.charging_current_amps = 0 ∧
    exampleBatteryResult.charging_power_watts = 0 ∧
    exampleBatteryResult.charging_current_amps =
      exampleBatteryResult.charging_power_watts := by
  have h := battery_charging_defaults_zero exampleBatteryDoc 0
    exampleBatteryResult (by rfl)
  have h1 := h.1 (Or.inl (by rfl))
  have h2 := h.2 (Or.inr (by rfl))
  exact ⟨rfl, rfl, h1, h2, by rw [h1, h2]⟩

/-- C4: after a successful token exchange with positive lifetime,
`is_token_valid` is true and `need_token_refresh` is false at the
exchange instant; at any clock value `t`, `is_token_valid` is true
exactly until the expiry instant and `need_token_refresh` is true
exactly when the remaining lifetime is below
`min(token_lifetime / 2, TOKEN_REFRESH_WINDOW_MIN)`; and
`need_token_refresh` on a state with no expiry raises
`PolestarAuthException`. -/
theorem token_timing_spec :
    ∀ (st : AuthState) (now : ℚ) (resp : TokenResponse) (p : TokenPayload),
      resp.payload = .ok p → 0 < p.expires_in →
      ((is_token_valid (_parse_token_response st now resp).2 now = .ok true ∧
        need_token_refresh (_parse_token_response st now resp).2 now =
          .ok false) ∧
       (∀ t, is_token_valid (_parse_token_response st now resp).2 t =
          .ok (decide (t < now + p.expires_in))) ∧
       (∀ t, need_token_refresh (_parse_token_response st now resp).2 t =
          .ok (decide (now + p.expires_in - t <
            min (p.expires_in / 2) TOKEN_REFRESH_WINDOW_MIN))) ∧
       (∀ (s : AuthState) (t : ℚ), s.token_expiry = none →
          need_token_refresh s t = .error .polestarAuthException)) := by
  intro st now resp p hp hpos
  obtain ⟨status, payload⟩ := resp
  simp only at hp
  subst hp
  refine ⟨⟨?_, ?_⟩, ?_, ?_, ?_⟩
  · have hlt : now < now + p.expires_in := by linarith
    simp [_parse_token_response, is_token_valid, hlt]
  · have heq : now + p.expires_in - now = p.expires_in := by ring
    have hnot : ¬(now + p.expires_in - now <
        min (p.expires_in / 2) TOKEN_REFRESH_WINDOW_MIN) := by
      rw [heq, lt_min_iff]
      rintro ⟨h1, _⟩
      linarith
    simp only [_parse_token_response, need_token_refresh]
    simp [hnot]
    intro h1
    linarith
  · intro t
    simp [_parse_token_response, is_token_valid]
  · intro t
    simp [_parse_token_response, need_token_refresh, TOKEN_REFRESH_WINDOW_MIN]
  · intro s t hs
    simp [need_token_refresh, hs]

/-- Witness for C4 at a concrete state, clock and 3600-second token. -/
theorem token_timing_spec_witness :
    is_token_valid
      (_parse_token_response ⟨none, none, none, none, none, none⟩ 0
        ⟨200, .ok ⟨"at", "rt", 3600⟩⟩).2 0 = .ok true ∧
    need_token_refresh
      (_parse_token_response ⟨none, none, none, none, none, none⟩ 0
        ⟨200, .ok ⟨"at", "rt", 3600⟩⟩).2 0 = .ok false ∧
    need_token_refresh
      (_parse_token_response ⟨none, none, none, none, none, none⟩ 0
        ⟨200, .ok ⟨"at", "rt", 3600⟩⟩).2 3500 = .ok true ∧
    need_token_refresh ⟨none, none, none, none, none, none⟩ 0 =
      .error .polestarAuthException := by
  have h := token_timing_spec ⟨none, none, none, none, none, none⟩ 0
    ⟨200, .ok ⟨"at", "rt", 3600⟩⟩ ⟨"at", "rt", 3600⟩ rfl (by norm_num)
  refine ⟨h.1.1, h.1.2, ?_, h.2.2.2 _ 0 rfl⟩
  rw [h.2.2.1 3500]
  norm_num [TOKEN_REFRESH_WINDOW_MIN]

/-- C1 (code divergence): whenever the fast path is not taken (here:
`force = true`) and a truthy refresh token exists, `get_token` issues
the refresh request AND then always performs the full
authorization-code flow — even when the refresh response is a success
payload.  There is no `return` after `_token_refresh` in `auth.py`
lines 116-121, so a successful refresh does NOT end the operation as
the claim (and the warning message of the `except` branch, which
presents the code flow as the retry for a FAILED refresh) says. -/
theorem get_token_code_flow_after_successful_refresh :
    ∀ (st : AuthState) (now : ℚ) (env : AuthEnv) (rt : String)
      (p : TokenPayload),
      st.refresh_token = some rt → rt ≠ "" →
      env.refreshResponse.payload = .ok p →
      (get_token st now true env).2.2 =
        [AuthCall.refreshRequest, AuthCall.codeFlowRequest] := by
  intro st now env rt p hrt hne _hp
  have htr : pyTruthyOptStr st.refresh_token = true := by
    rw [hrt]; simp [pyTruthyOptStr, hne]
  have hslow : get_token st now true env = get_token_slow st now env := by
    simp [get_token]
  rw [hslow]
  unfold get_token_slow
  rcases hpr : _parse_token_response st now env.refreshResponse with ⟨r0, st1⟩
  simp only [htr, if_true, hpr]
  cases hc : env.codeFlow with
  | error e => simp
  | ok resp =>
    rcases hpr2 : _parse_token_response st1 now resp with ⟨r2, st2⟩
    cases r2 <;> simp [hpr2]

/-- Witness for C1 at a concrete expired session whose refresh
endpoint answers with a fresh token. -/
theorem get_token_code_flow_after_successful_refresh_witness :
    (get_token ⟨some "at", none, some "rt", some 3600, some ⟨1000, true⟩, none⟩
      0 true
      ⟨⟨200, .ok ⟨"newat", "newrt", 3600⟩⟩,
        .ok ⟨200, .ok ⟨"at2", "rt2", 3600⟩⟩⟩).2.2 =
      [AuthCall.refreshRequest, AuthCall.codeFlowRequest] :=
  get_token_code_flow_after_successful_refresh
    ⟨some "at", none, some "rt", some 3600, some ⟨1000, true⟩, none⟩ 0
    ⟨⟨200, .ok ⟨"newat", "newrt", 3600⟩⟩, .ok ⟨200, .ok ⟨"at2", "rt2", 3600⟩⟩⟩
    "rt" ⟨"newat", "newrt", 3600⟩ rfl (by decide) rfl

/-- C3 (code divergence): every call of `PolestarApi.init` raises
`AttributeError` — `polestar.py` line 51 awaits `self.auth.init()`,
but `PolestarAuth` defines `async_init` and no `init`, and the
`except PolestarAuthException` clause does not catch `AttributeError`.
No authentication error can propagate (none is ever raised — and if
one were, the except clause at lines 71-72 logs and swallows it), and
the no-data check is never reached. -/
theorem polestar_init_always_attribute_error :
    ∀ (st : ApiState) (now : ℚ) (env : InitEnv),
      PolestarApi.init st now env = (.error .attributeError, st) := by
  intro st now env
  rfl

/-- C2 (code divergence): a concrete `get_ev_data` call on a state
whose token was issued by `auth.py` (UTC-aware `token_expiry`), with
the gate free and no cooldown, propagates `TypeError` to the caller
and leaves the `updating` gate held.  `polestar.py` line 103 subtracts
naive `datetime.now()` from the aware expiry (`TypeError` in CPython),
and even past that, line 104 would call
`self.auth.get_token(refresh=True)` although `PolestarAuth.get_token`
accepts only `force` (again `TypeError`); neither is caught by the
`except PolestarAuthException` clause, so `self.updating` is never
reset and `next_update` is never assigned. -/
theorem get_ev_data_propagates_typeerror_and_holds_gate :
    (get_ev_data
      ⟨⟨some "at", none, some "rt", some 3600, some ⟨1000, true⟩, some 200⟩,
        false, none, none, none, fun _ => none, fun _ _ => none⟩
      900 "VIN"
      ⟨.success (.int 1), .success (.int 2),
        ⟨⟨200, .ok ⟨"a", "r", 3600⟩⟩, .ok ⟨200, .ok ⟨"a", "r", 3600⟩⟩⟩⟩).1 =
      .error .typeError ∧
    (get_ev_data
      ⟨⟨some "at", none, some "rt", some 3600, some ⟨1000, true⟩, some 200⟩,
        false, none, none, none, fun _ => none, fun _ _ => none⟩
      900 "VIN"
      ⟨.success (.int 1), .success (.int 2),
        ⟨⟨200, .ok ⟨"a", "r", 3600⟩⟩, .ok ⟨200, .ok ⟨"a", "r", 3600⟩⟩⟩⟩).2.updating =
      true := by
  exact ⟨rfl, rfl⟩

/-- C5 (code divergence): whenever the refresh gate is free, the
cooldown has elapsed and the session holds a token issued by `auth.py`
(hence an AWARE `token_expiry`, see `_parse_token_response`),
`get_ev_data` raises `TypeError` at the token-age check
(`polestar.py` line 103, aware minus naive) BEFORE issuing any
telemetry query: the whole cache — the odometer entry included — is
left pointwise unchanged, so the claimed partial-failure frame effect
(odometer entry replaced while battery entry is preserved) never
happens, whatever the query outcomes would have been. -/
theorem get_ev_data_no_cache_write_on_aware_expiry :
    ∀ (st : ApiState) (now : ℚ) (vin : String) (env : ApiEnv) (e : TimeVal),
      st.updating = false →
      (st.next_update = none ∨ ∃ t, st.next_update = some t ∧ t ≤ now) →
      st.auth.token_expiry = some e → e.aware = true →
      (get_ev_data st now vin env).1 = .error .typeError ∧
      (get_ev_data st now vin env).2.updating = true ∧
      ∀ v k, (get_ev_data st now vin env).2.cache v k = st.cache v k := by
  intro st now vin env e hup hcd hexp haw
  have hcond : (match st.next_update with
      | some t => decide (now < t)
      | none => false) = false := by
    rcases hcd with h | ⟨t, ht, hle⟩
    · rw [h]
    · rw [ht]
      exact decide_eq_false (not_lt.mpr hle)
  have hres : get_ev_data st now vin env =
      (.error .typeError, { st with updating := true }) := by
    unfold get_ev_data
    rw [hcond]
    simp only [hup, Bool.false_eq_true, if_false, hexp, haw, if_true]
  rw [hres]
  exact ⟨rfl, rfl, fun v k => rfl⟩

/-- Witness for C5: gate free, no cooldown, aware expiry, odometer
poised to succeed and battery poised to fail — yet the call raises
`TypeError` and neither cache slot changes. -/
theorem get_ev_data_no_cache_write_witness :
    (get_ev_data
      ⟨⟨some "tok", none, some "ref", some 3600, some ⟨5000, true⟩, some 200⟩,
        false, none, none, some 10, fun _ => none, fun _ _ => none⟩
      100 "V1"
      ⟨.success (.int 7), .apiError,
        ⟨⟨200, .ok ⟨"a", "r", 3600⟩⟩, .ok ⟨200, .ok ⟨"a", "r", 3600⟩⟩⟩⟩).1 =
      .error .typeError ∧
    (get_ev_data
      ⟨⟨some "tok", none, some "ref", some 3600, some ⟨5000, true⟩, some 200⟩,
        false, none, none, some 10, fun _ => none, fun _ _ => none⟩
      100 "V1"
      ⟨.success (.int 7), .apiError,
        ⟨⟨200, .ok ⟨"a", "r", 3600⟩⟩, .ok ⟨200, .ok ⟨"a", "r", 3600⟩⟩⟩⟩).2.cache
      "V1" ODO_METER_DATA = none ∧
    (get_ev_data
      ⟨⟨some "tok", none, some "ref", some 3600, some ⟨5000, true⟩, some 200⟩,
        false, none, none, some 10, fun _ => none, fun _ _ => none⟩
      100 "V1"
      ⟨.success (.int 7), .apiError,
        ⟨⟨200, .ok ⟨"a", "r", 3600⟩⟩, .ok ⟨200, .ok ⟨"a", "r", 3600⟩⟩⟩⟩).2.cache
      "V1" BATTERY_DATA = none := by
  have h := get_ev_data_no_cache_write_on_aware_expiry
    ⟨⟨some "tok", none, some "ref", some 3600, some ⟨5000, true⟩, some 200⟩,
      false, none, none, some 10, fun _ => none, fun _ _ => none⟩
    100 "V1"
    ⟨.success (.int 7), .apiError,
      ⟨⟨200, .ok ⟨"a", "r", 3600⟩⟩, .ok ⟨200, .ok ⟨"a", "r", 3600⟩⟩⟩⟩
    ⟨5000, true⟩ rfl (Or.inr ⟨10, rfl, by norm_num⟩) rfl rfl
  exact ⟨h.1, h.2.2 "V1" ODO_METER_DATA, h.2.2 "V1" BATTERY_DATA⟩
